import Mathlib

/-!
# Verification of the authenticated-session core

A shallow embedding of the session core of this repository
(`api/axios.ts`, `services/authService.ts` in `src/native.en.ts`; the
same logic appears in `src/natvived.js`):

* `Storage` models the AsyncStorage keys `token` and `user` (the `user`
  key holds the textual JSON serialization of the profile).
* `applyRequestInterceptor` models the axios request interceptor that
  reads the token and, when truthy, attaches an `Authorization: Bearer`
  header.
* `gatewayRequest` models one request through the configured axios
  instance: the request interceptor runs, the server produces an
  outcome (`ServerOutcome`), and the response interceptor clears the
  stored token when the failure carries HTTP status 401, re-raising the
  original error.
* `handleError` models the `handleError` normalization in
  `authService`.
* `login`, `register`, `logout`, `getCurrentUser`, `isAuthenticated`
  model the corresponding `authService` operations.
* `stringifyUser` / `parseUser` model `JSON.stringify` on a profile
  record (fields `id`, `email`, `fullName`, optional `phone`, in
  interface order) and `JSON.parse` specialized to that shape,
  including the standard JSON string escapes.
-/

/-- The user profile record (`User` in `types/index.ts`): `id`, `email`,
`fullName`, optional `phone`. -/
structure User where
  id : String
  email : String
  fullName : String
  phone : Option String
deriving DecidableEq

/-- The two AsyncStorage keys owned by the session store: the raw bearer
token under `token` and the JSON-serialized profile under `user`.
`none` models an unset key (`getItem` returning `null`). -/
structure Storage where
  token : Option String
  user : Option String
deriving DecidableEq

/-- JS truthiness of a `string | null` value: `null` and the empty
string are falsy. -/
def strTruthy (v : Option String) : Bool :=
  match v with
  | none => false
  | some s => if s = "" then false else true

/-! ## JSON serialization of the profile

`JSON.stringify(response.data.user)` and `JSON.parse(userStr)` from the
source, modelled at the character level for this record shape. -/

/-- Hex digit used by the `\u00XX` escape (lowercase, as emitted by
`JSON.stringify`). -/
def hexDigit (n : Nat) : Char :=
  if n < 10 then Char.ofNat (48 + n) else Char.ofNat (87 + n)

/-- Value of a hex digit character (`JSON.parse` accepts both cases). -/
def hexVal (c : Char) : Option Nat :=
  if 48 ≤ c.toNat ∧ c.toNat ≤ 57 then some (c.toNat - 48)
  else if 97 ≤ c.toNat ∧ c.toNat ≤ 102 then some (c.toNat - 87)
  else if 65 ≤ c.toNat ∧ c.toNat ≤ 70 then some (c.toNat - 55)
  else none

/-- `JSON.stringify` escaping of one character inside a string literal:
quote and backslash get a backslash escape, the control characters with
short forms use them, the remaining control characters use `\u00XX`,
everything else is emitted literally. -/
def escChar (c : Char) : List Char :=
  if c = '"' then ['\\', '"']
  else if c = '\\' then ['\\', '\\']
  else if c = '\x08' then ['\\', 'b']
  else if c = '\t' then ['\\', 't']
  else if c = '\n' then ['\\', 'n']
  else if c = '\x0c' then ['\\', 'f']
  else if c = '\r' then ['\\', 'r']
  else if c.toNat < 32 then ['\\', 'u', '0', '0', hexDigit (c.toNat / 16), hexDigit (c.toNat % 16)]
  else [c]

/-- Escape a whole string body. -/
def escStr : List Char → List Char
  | [] => []
  | c :: cs => escChar c ++ escStr cs

/-- Prepend a character to the string accumulated by `parseStrAux`. -/
def consFst (c : Char) : Option (List Char × List Char) → Option (List Char × List Char)
  | some (s, r) => some (c :: s, r)
  | none => none

/-- `JSON.parse` reading of a string literal body: consumes characters
up to and including the closing quote, undoing the escapes; rejects raw
control characters and malformed escapes. Returns the decoded
characters and the remaining input. -/
def parseStrAux : List Char → Option (List Char × List Char)
  | [] => none
  | c :: cs =>
    if c = '"' then some ([], cs)
    else if c = '\\' then
      match cs with
      | [] => none
      | e :: cs2 =>
        if e = '"' then consFst '"' (parseStrAux cs2)
        else if e = '\\' then consFst '\\' (parseStrAux cs2)
        else if e = '/' then consFst '/' (parseStrAux cs2)
        else if e = 'b' then consFst '\x08' (parseStrAux cs2)
        else if e = 't' then consFst '\t' (parseStrAux cs2)
        else if e = 'n' then consFst '\n' (parseStrAux cs2)
        else if e = 'f' then consFst '\x0c' (parseStrAux cs2)
        else if e = 'r' then consFst '\r' (parseStrAux cs2)
        else if e = 'u' then
          match cs2 with
          | d1 :: d2 :: d3 :: d4 :: cs3 =>
            match hexVal d1, hexVal d2, hexVal d3, hexVal d4 with
            | some a, some b, some c2, some d =>
              consFst (Char.ofNat (((a * 16 + b) * 16 + c2) * 16 + d)) (parseStrAux cs3)
            | _, _, _, _ => none
          | _ => none
        else none
    else if c.toNat < 32 then none
    else consFst c (parseStrAux cs)

/-- Literal `{"id":"` opening the serialized profile. -/
def litId : List Char := ['\x7b', '"', 'i', 'd', '"', ':', '"']

/-- Literal `,"email":"` between the `id` and `email` fields. -/
def litEmail : List Char := [',', '"', 'e', 'm', 'a', 'i', 'l', '"', ':', '"']

/-- Literal `,"fullName":"` between the `email` and `fullName` fields. -/
def litFullName : List Char := [',', '"', 'f', 'u', 'l', 'l', 'N', 'a', 'm', 'e', '"', ':', '"']

/-- Literal `,"phone":"` before the optional `phone` field. -/
def litPhone : List Char := [',', '"', 'p', 'h', 'o', 'n', 'e', '"', ':', '"']

/-- Tail of the serialized profile after the closing quote of
`fullName`: either just `}` or the `phone` field followed by `}`. -/
def phoneTail : Option String → List Char
  | none => ['\x7d']
  | some p => litPhone ++ (escStr p.data ++ ['"', '\x7d'])

/-- Characters of `JSON.stringify` applied to a profile record, fields
in interface order. -/
def stringifyUserChars (u : User) : List Char :=
  litId ++ (escStr u.id.data ++ ('"' ::
    (litEmail ++ (escStr u.email.data ++ ('"' ::
      (litFullName ++ (escStr u.fullName.data ++ ('"' :: phoneTail u.phone))))))))

/-- `JSON.stringify(user)` for a profile record. -/
def stringifyUser (u : User) : String :=
  String.mk (stringifyUserChars u)

/-- Consume an expected literal prefix, returning the rest of the
input; fails if the input does not start with the literal. -/
def dropLit : List Char → List Char → Option (List Char)
  | [], cs => some cs
  | _ :: _, [] => none
  | l :: ls, c :: cs => if c = l then dropLit ls cs else none

/-- `JSON.parse` specialized to the serialized profile shape: the four
fields in interface order, `phone` optional. -/
def parseUserChars (cs : List Char) : Option User :=
  match dropLit litId cs with
  | none => none
  | some cs1 =>
    match parseStrAux cs1 with
    | none => none
    | some (idChars, cs2) =>
      match dropLit litEmail cs2 with
      | none => none
      | some cs3 =>
        match parseStrAux cs3 with
        | none => none
        | some (emailChars, cs4) =>
          match dropLit litFullName cs4 with
          | none => none
          | some cs5 =>
            match parseStrAux cs5 with
            | none => none
            | some (nameChars, cs6) =>
              match cs6 with
              | ['\x7d'] =>
                some ⟨String.mk idChars, String.mk emailChars, String.mk nameChars, none⟩
              | _ =>
                match dropLit litPhone cs6 with
                | none => none
                | some cs7 =>
                  match parseStrAux cs7 with
                  | none => none
                  | some (phoneChars, cs8) =>
                    match cs8 with
                    | ['\x7d'] =>
                      some ⟨String.mk idChars, String.mk emailChars, String.mk nameChars,
                            some (String.mk phoneChars)⟩
                    | _ => none

/-- `JSON.parse` of a stored profile string. -/
def parseUser (s : String) : Option User :=
  parseUserChars s.data

/-! ## Request gateway (axios instance with interceptors) -/

/-- An outgoing HTTP request as seen by the request interceptor: the
endpoint path and the `Authorization` header (absent on a freshly
constructed request). -/
structure Request where
  path : String
  authorization : Option String
deriving DecidableEq

/-- A request as constructed by a service call such as
`axiosInstance.post(path, body)`: no `Authorization` header yet. -/
def mkRequest (path : String) : Request :=
  { path := path, authorization := none }

/-- `Bearer <token>` header value. -/
def bearerOf (t : String) : String :=
  "Bearer " ++ t

/-- The axios request interceptor: read the token from storage and, if
truthy, set `config.headers.Authorization` to `Bearer <token>`;
otherwise leave the request unmodified. -/
def applyRequestInterceptor (st : Storage) (req : Request) : Request :=
  match st.token with
  | some t => if t = "" then req else { req with authorization := some (bearerOf t) }
  | none => req

/-- The axios error object as observed by `handleError`:
`error.response` (status and optional `data.message`) when the server
answered, `error.request` truthiness when the request was sent. -/
structure AxiosError where
  responseStatus : Option Nat
  responseMessage : Option String
  requestSent : Bool
deriving DecidableEq

/-- Outcome of one request as decided by the environment (server and
network): a successful response with a body, an HTTP error response
with a status and optional body `message`, a sent request that got no
response, or a request that could not be constructed at all. -/
inductive ServerOutcome (α : Type) where
  | success (body : α)
  | httpError (status : Nat) (message : Option String)
  | noResponse
  | setupFailure
deriving DecidableEq

deriving instance DecidableEq for Except

/-- Result of pushing one request through the axios instance: the
request that was actually sent (after the request interceptor), the
storage after the response interceptor ran, and the passed-through
response or re-raised error. -/
structure GatewayResult (α : Type) where
  sent : Request
  store : Storage
  result : Except AxiosError α
deriving DecidableEq

/-- One request through the configured axios instance. The request
interceptor attaches the bearer token; the response interceptor passes
successes through unchanged, removes the stored token when the failure
has `error.response?.status === 401`, and re-raises the original error
(`Promise.reject(error)`) in every failure case. -/
def gatewayRequest (st : Storage) (path : String) (out : ServerOutcome α) : GatewayResult α :=
  let sent := applyRequestInterceptor st (mkRequest path)
  match out with
  | .success body => ⟨sent, st, .ok body⟩
  | .httpError s m =>
      ⟨sent, if s = 401 then { st with token := none } else st,
       .error ⟨some s, m, true⟩⟩
  | .noResponse => ⟨sent, st, .error ⟨none, none, true⟩⟩
  | .setupFailure => ⟨sent, st, .error ⟨none, none, false⟩⟩

/-! ## Error normalization (`handleError`) -/

/-- Normalized error value `{status, message}` thrown by the auth
service. -/
structure ErrorResponse where
  status : Nat
  message : String
deriving DecidableEq

/-- Generic fallback message used when the error response body carries
no truthy `message`. -/
def fallbackMsg : String := "Une erreur est survenue"

/-- Message for a request that received no response. -/
def unreachableMsg : String := "Le serveur ne répond pas"

/-- Message for a request that could not be configured. -/
def configErrorMsg : String := "Erreur lors de la configuration de la requête"

/-- JS `m || fb` on an optional string: the fallback when the message
is absent or empty (falsy). -/
def strOr (m : Option String) (fb : String) : String :=
  match m with
  | none => fb
  | some s => if s = "" then fb else s

/-- `handleError` from `authService`: a present `error.response` gives
`{status, data.message || fallback}`; else a present `error.request`
gives `{503, ...}`; else `{500, ...}`. -/
def handleError (e : AxiosError) : ErrorResponse :=
  match e.responseStatus with
  | some s => { status := s, message := strOr e.responseMessage fallbackMsg }
  | none =>
    if e.requestSent then { status := 503, message := unreachableMsg }
    else { status := 500, message := configErrorMsg }

/-! ## Auth service -/

/-- Body of a successful `/auth/login` response: `{ token, user }`.
`token` is optional at the JS level (`response.data.token` may be
absent) and may be the empty string; both are falsy. -/
structure AuthResponse where
  token : Option String
  user : User
deriving DecidableEq

/-- Result of one auth-service operation: the storage afterwards, the
request the gateway sent for it, and the returned body or thrown
normalized error. -/
structure ServiceResult (β : Type) where
  store : Storage
  sent : Request
  result : Except ErrorResponse β
deriving DecidableEq

/-- `authService.login`: POST `/auth/login`; on a response whose body
has a truthy `token`, persist the token and the serialized user, then
return the body; on a falsy token return the body without touching
storage; on failure throw `handleError(error)`. -/
def login (st : Storage) (out : ServerOutcome AuthResponse) : ServiceResult AuthResponse :=
  let g := gatewayRequest st "/auth/login" out
  match g.result with
  | .ok body =>
      if strTruthy body.token then
        ⟨{ token := body.token, user := some (stringifyUser body.user) }, g.sent, .ok body⟩
      else
        ⟨g.store, g.sent, .ok body⟩
  | .error e => ⟨g.store, g.sent, .error (handleError e)⟩

/-- `authService.register`: POST `/auth/register`; return the body on
success, throw `handleError(error)` on failure; never touches
storage itself. -/
def register {β : Type} (st : Storage) (out : ServerOutcome β) : ServiceResult β :=
  let g := gatewayRequest st "/auth/register" out
  match g.result with
  | .ok body => ⟨g.store, g.sent, .ok body⟩
  | .error e => ⟨g.store, g.sent, .error (handleError e)⟩

/-- `authService.logout`: remove the `token` and `user` keys first,
then POST `/auth/logout`; a failure of the call is rethrown as
`handleError(error)` after the local state was already cleared. -/
def logout (st : Storage) (out : ServerOutcome Unit) : ServiceResult Unit :=
  let cleared : Storage := { st with token := none, user := none }
  let g := gatewayRequest cleared "/auth/logout" out
  match g.result with
  | .ok _ => ⟨g.store, g.sent, .ok ()⟩
  | .error e => ⟨g.store, g.sent, .error (handleError e)⟩

/-- Outcome of the `AsyncStorage.getItem('user')` read performed by
`getCurrentUser`: the stored value, or a storage-layer failure. -/
inductive ReadOutcome where
  | ok (v : Option String)
  | fail
deriving DecidableEq

/-- `authService.getCurrentUser` over an explicit read outcome: a
storage failure is caught and yields `null`; an unset key yields
`null`; otherwise the stored string is `JSON.parse`d, a parse failure
being caught and yielding `null` as well. -/
def getCurrentUserIO : ReadOutcome → Option User
  | .fail => none
  | .ok none => none
  | .ok (some s) => parseUser s

/-- `authService.getCurrentUser` when the storage read succeeds. -/
def getCurrentUser (st : Storage) : Option User :=
  getCurrentUserIO (.ok st.user)

/-- `authService.isAuthenticated`: `!!token` on the stored value. -/
def isAuthenticated (st : Storage) : Bool :=
  strTruthy st.token

/-- The session-store write performed by a successful login for the
profile half: store the serialized profile under the `user` key. -/
def setUser (st : Storage) (u : User) : Storage :=
  { st with user := some (stringifyUser u) }

/-! ## Helper lemmas: the serialize/parse round-trip -/

/-- The hex digits emitted by the `\u00XX` escape decode back to their
value. -/
theorem hexVal_hexDigit : ∀ n < 16, hexVal (hexDigit n) = some n := by decide

/-- The serialized literals spell the expected JSON key fragments. -/
theorem lit_spellings :
    litId = "\x7b\"id\":\"".data ∧ litEmail = ",\"email\":\"".data ∧
    litFullName = ",\"fullName\":\"".data ∧ litPhone = ",\"phone\":\"".data := by
  decide

/-- Reading one escaped character undoes the escape and leaves the rest
of the input to be parsed. -/
theorem parseStrAux_escChar (c : Char) (cs : List Char) :
    parseStrAux (escChar c ++ cs) = consFst c (parseStrAux cs) := by
  by_cases h1 : c = '"'
  · subst h1; rw [parseStrAux.eq_def]; simp [escChar]
  by_cases h2 : c = '\\'
  · subst h2; rw [parseStrAux.eq_def]; simp [escChar]
  by_cases h3 : c = '\x08'
  · subst h3; rw [parseStrAux.eq_def]; simp [escChar]
  by_cases h4 : c = '\t'
  · subst h4; rw [parseStrAux.eq_def]; simp [escChar]
  by_cases h5 : c = '\n'
  · subst h5; rw [parseStrAux.eq_def]; simp [escChar]
  by_cases h6 : c = '\x0c'
  · subst h6; rw [parseStrAux.eq_def]; simp [escChar]
  by_cases h7 : c = '\r'
  · subst h7; rw [parseStrAux.eq_def]; simp [escChar]
  by_cases h8 : c.toNat < 32
  · have hhi : hexVal (hexDigit (c.toNat / 16)) = some (c.toNat / 16) :=
      hexVal_hexDigit _ (by omega)
    have hlo : hexVal (hexDigit (c.toNat % 16)) = some (c.toNat % 16) :=
      hexVal_hexDigit _ (by omega)
    have h0 : hexVal '0' = some 0 := by decide
    rw [parseStrAux.eq_def]
    simp [escChar, h1, h2, h3, h4, h5, h6, h7, h8, h0, hhi, hlo]
    congr 1
    have harith : c.toNat / 16 * 16 + c.toNat % 16 = c.toNat := by omega
    rw [harith, Char.ofNat_toNat]
  · rw [parseStrAux.eq_def]
    simp [escChar, h1, h2, h3, h4, h5, h6, h7, h8]

/-- Parsing an escaped string body up to its closing quote recovers the
original characters. -/
theorem parseStrAux_escStr (s : List Char) (rest : List Char) :
    parseStrAux (escStr s ++ '"' :: rest) = some (s, rest) := by
  induction s with
  | nil => rw [escStr, List.nil_append, parseStrAux.eq_def]; simp
  | cons c s ih =>
      rw [escStr, List.append_assoc, parseStrAux_escChar, ih, consFst]

/-- `dropLit` consumes exactly the expected literal. -/
theorem dropLit_append (lit cs : List Char) : dropLit lit (lit ++ cs) = some cs := by
  induction lit with
  | nil => rfl
  | cons l ls ih => simp [dropLit, ih]

/-- The serialize/parse round-trip on a profile record, at the level of
the two character-level functions. -/
theorem parseUser_stringifyUser (u : User) : parseUser (stringifyUser u) = some u := by
  obtain ⟨uid, uem, ufn, uph⟩ := u
  show parseUserChars (stringifyUserChars ⟨uid, uem, ufn, uph⟩) = some ⟨uid, uem, ufn, uph⟩
  cases uph with
  | none =>
      simp only [stringifyUserChars, phoneTail, parseUserChars, dropLit_append,
        parseStrAux_escStr]
  | some p =>
      simp [stringifyUserChars, phoneTail, parseUserChars, dropLit_append,
        parseStrAux_escStr, litPhone, dropLit, List.cons_append, List.nil_append]

/-! ## Claim theorems -/

/-- The normalized error the auth service throws for a failing outcome:
`handleError` applied to the axios error the gateway re-raises. -/
def normalizeFailure {α : Type} : ServerOutcome α → Option ErrorResponse
  | .success _ => none
  | .httpError s m => some (handleError ⟨some s, m, true⟩)
  | .noResponse => some (handleError ⟨none, none, true⟩)
  | .setupFailure => some (handleError ⟨none, none, false⟩)

/-- C1: for every request through the gateway, to any endpoint, whose
response has HTTP status 401, the stored token is cleared before the
error is returned, the cached user is left in place, the original
axios failure is re-raised unchanged (no swallowing, no retry), and
any request issued afterwards from the resulting state carries no
`Authorization` header. -/
theorem gateway_401_clears_token_and_reraises (st : Storage) (path : String)
    (msg : Option String) (nextPath : String) (nextOut : ServerOutcome Unit) :
    (gatewayRequest st path (ServerOutcome.httpError 401 msg : ServerOutcome Unit)).store.token = none
  ∧ (gatewayRequest st path (ServerOutcome.httpError 401 msg : ServerOutcome Unit)).store.user = st.user
  ∧ (gatewayRequest st path (ServerOutcome.httpError 401 msg : ServerOutcome Unit)).result
      = Except.error ⟨some 401, msg, true⟩
  ∧ (gatewayRequest (gatewayRequest st path (ServerOutcome.httpError 401 msg : ServerOutcome Unit)).store
       nextPath nextOut).sent.authorization = none := by
  refine ⟨rfl, rfl, rfl, ?_⟩
  cases nextOut <;> rfl

/-- C2: every login that succeeds with a truthy token in the body
persists the token and the serialized user via the store, returns the
full response body, makes `isAuthenticated` true, and makes
`getCurrentUser` return exactly the user object of the response. -/
theorem login_success_persists (st : Storage) (body : AuthResponse) (t : String)
    (htok : body.token = some t) (hne : t ≠ "") :
    (login st (.success body)).store.token = some t
  ∧ (login st (.success body)).store.user = some (stringifyUser body.user)
  ∧ (login st (.success body)).result = .ok body
  ∧ isAuthenticated (login st (.success body)).store = true
  ∧ getCurrentUser (login st (.success body)).store = some body.user := by
  have htr : strTruthy body.token = true := by rw [htok]; simp [strTruthy, hne]
  have hmain : login st (.success body)
      = ⟨{ token := body.token, user := some (stringifyUser body.user) },
         applyRequestInterceptor st (mkRequest "/auth/login"), .ok body⟩ := by
    simp only [login, gatewayRequest, htr, if_true]
  rw [hmain, htok]
  refine ⟨rfl, rfl, rfl, ?_, ?_⟩
  · simp [isAuthenticated, strTruthy, hne]
  · simp only [getCurrentUser, getCurrentUserIO]
    exact parseUser_stringifyUser body.user

/-- C2 witness: the login scenario of the spec, with token `T1` and the
sample user, evaluated concretely. -/
theorem login_success_persists_witness :
    (login ⟨none, none⟩ (.success ⟨some "T1", ⟨"1", "a@b.com", "A", none⟩⟩)).store.token = some "T1"
  ∧ (login ⟨none, none⟩ (.success ⟨some "T1", ⟨"1", "a@b.com", "A", none⟩⟩)).store.user
      = some (stringifyUser ⟨"1", "a@b.com", "A", none⟩)
  ∧ (login ⟨none, none⟩ (.success ⟨some "T1", ⟨"1", "a@b.com", "A", none⟩⟩)).result
      = .ok ⟨some "T1", ⟨"1", "a@b.com", "A", none⟩⟩
  ∧ isAuthenticated (login ⟨none, none⟩ (.success ⟨some "T1", ⟨"1", "a@b.com", "A", none⟩⟩)).store = true
  ∧ getCurrentUser (login ⟨none, none⟩ (.success ⟨some "T1", ⟨"1", "a@b.com", "A", none⟩⟩)).store
      = some ⟨"1", "a@b.com", "A", none⟩ :=
  login_success_persists ⟨none, none⟩ ⟨some "T1", ⟨"1", "a@b.com", "A", none⟩⟩ "T1" rfl (by decide)

/-- C3: after `logout`, whatever the network outcome of the
`POST /auth/logout` call, the token and user are cleared (they are
removed before the call is made, so the logout request itself carries
no `Authorization` header), `isAuthenticated` is false, and a network
failure is still surfaced to the caller as the normalized error. -/
theorem logout_locally_authoritative (st : Storage) (out : ServerOutcome Unit) :
    isAuthenticated (logout st out).store = false
  ∧ (logout st out).store.token = none
  ∧ (logout st out).store.user = none
  ∧ (logout st out).sent.authorization = none
  ∧ (∀ e : ErrorResponse, normalizeFailure out = some e → (logout st out).result = .error e) := by
  cases out with
  | success b =>
      exact ⟨rfl, rfl, rfl, rfl, fun e h => by cases h⟩
  | httpError s m =>
      by_cases hs : s = 401
      · subst hs
        exact ⟨rfl, rfl, rfl, rfl, fun e h => by cases h; rfl⟩
      · refine ⟨?_, ?_, ?_, ?_, fun e h => ?_⟩ <;>
          simp_all [logout, gatewayRequest, normalizeFailure, isAuthenticated, strTruthy,
            applyRequestInterceptor, mkRequest, hs]
  | noResponse =>
      exact ⟨rfl, rfl, rfl, rfl, fun e h => by cases h; rfl⟩
  | setupFailure =>
      exact ⟨rfl, rfl, rfl, rfl, fun e h => by cases h; rfl⟩

/-- C3 witness: logout from an authenticated session while the network
is unreachable still clears the session and reports the 503 error. -/
theorem logout_locally_authoritative_witness :
    isAuthenticated (logout ⟨some "T1", some "U"⟩ ServerOutcome.noResponse).store = false
  ∧ (logout ⟨some "T1", some "U"⟩ ServerOutcome.noResponse).result
      = .error ⟨503, unreachableMsg⟩ :=
  ⟨(logout_locally_authoritative ⟨some "T1", some "U"⟩ ServerOutcome.noResponse).1,
   (logout_locally_authoritative ⟨some "T1", some "U"⟩ ServerOutcome.noResponse).2.2.2.2
     ⟨503, unreachableMsg⟩ rfl⟩

/-- C4 counterexample: a login that fails with HTTP status 401 does NOT
leave the session unchanged — the response interceptor clears the
stored token before the normalized error reaches the caller, so the
claim as stated is false at this input. -/
theorem login_401_mutates_session :
    ¬ ((login ⟨some "T1", some "U"⟩
          (ServerOutcome.httpError 401 none : ServerOutcome AuthResponse)).store
        = ⟨some "T1", some "U"⟩)
  ∧ (login ⟨some "T1", some "U"⟩
        (ServerOutcome.httpError 401 none : ServerOutcome AuthResponse)).store.token = none
  ∧ (login ⟨some "T1", some "U"⟩
        (ServerOutcome.httpError 401 none : ServerOutcome AuthResponse)).result
      = .error ⟨401, fallbackMsg⟩ := by
  refine ⟨?_, rfl, rfl⟩
  decide

/-- C4 amended: every failing login propagates the normalized error and
leaves the cached user unchanged; the stored token is also unchanged
unless the failure carries HTTP status 401, in which case the gateway
interceptor clears it. -/
theorem login_failure_propagates (st : Storage) (out : ServerOutcome AuthResponse)
    (e : ErrorResponse) (hf : normalizeFailure out = some e) :
    (login st out).result = .error e
  ∧ (login st out).store.user = st.user
  ∧ (∀ s m, out = .httpError s m → s ≠ 401 → (login st out).store = st)
  ∧ (out = .noResponse → (login st out).store = st)
  ∧ (out = .setupFailure → (login st out).store = st)
  ∧ (∀ m, out = .httpError 401 m → (login st out).store.token = none) := by
  cases out with
  | success b => cases hf
  | httpError s m =>
      cases hf
      by_cases hs : s = 401
      · subst hs
        refine ⟨rfl, rfl, ?_, ?_, ?_, ?_⟩
        · intro s' m' h h401
          injection h with h1 h2
          exact absurd h1.symm h401
        · intro h; cases h
        · intro h; cases h
        · intro m' h; rfl
      · refine ⟨?_, ?_, ?_, ?_, ?_, ?_⟩
        · simp [login, gatewayRequest, hs, normalizeFailure, handleError]
        · simp [login, gatewayRequest, hs]
        · intro s' m' h h401
          simp [login, gatewayRequest, hs]
        · intro h; cases h
        · intro h; cases h
        · intro m' h
          injection h with h1 h2
          exact absurd h1 hs
  | noResponse =>
      cases hf
      refine ⟨rfl, rfl, ?_, fun _ => rfl, ?_, ?_⟩
      · intro s' m' h; cases h
      · intro h; cases h
      · intro m' h; cases h
  | setupFailure =>
      cases hf
      refine ⟨rfl, rfl, ?_, ?_, fun _ => rfl, ?_⟩
      · intro s' m' h; cases h
      · intro h; cases h
      · intro m' h; cases h

/-- C4 amended witness: a login failing with no server response reports
the 503 error and leaves the session untouched. -/
theorem login_failure_propagates_witness :
    (login ⟨some "T1", some "U"⟩ (ServerOutcome.noResponse : ServerOutcome AuthResponse)).result
      = .error ⟨503, unreachableMsg⟩
  ∧ (login ⟨some "T1", some "U"⟩ (ServerOutcome.noResponse : ServerOutcome AuthResponse)).store
      = ⟨some "T1", some "U"⟩ :=
  ⟨(login_failure_propagates ⟨some "T1", some "U"⟩ ServerOutcome.noResponse
      ⟨503, unreachableMsg⟩ rfl).1,
   (login_failure_propagates ⟨some "T1", some "U"⟩ ServerOutcome.noResponse
      ⟨503, unreachableMsg⟩ rfl).2.2.2.1 rfl⟩

/-- C5: the request interceptor reads the current token; when a
non-empty (truthy) token is stored it is attached as
`Bearer <token>` in the `Authorization` header, otherwise the request
is sent unmodified. -/
theorem requestInterceptor_attaches_bearer (st : Storage) (req : Request) :
    (strTruthy st.token = false → applyRequestInterceptor st req = req)
  ∧ (∀ t, st.token = some t → t ≠ "" →
      applyRequestInterceptor st req = { req with authorization := some (bearerOf t) }) := by
  constructor
  · intro h
    cases htok : st.token with
    | none => simp [applyRequestInterceptor, htok]
    | some t =>
        rw [htok] at h
        simp only [strTruthy] at h
        by_cases he : t = ""
        · simp [applyRequestInterceptor, htok, he]
        · simp [he] at h
  · intro t htok hne
    simp [applyRequestInterceptor, htok, hne]

/-- C5 witness: a stored token `T1` is attached as a bearer credential;
an empty store sends the request unmodified. -/
theorem requestInterceptor_attaches_bearer_witness :
    applyRequestInterceptor ⟨some "T1", none⟩ (mkRequest "/products")
      = { mkRequest "/products" with authorization := some (bearerOf "T1") }
  ∧ applyRequestInterceptor ⟨none, none⟩ (mkRequest "/products") = mkRequest "/products" :=
  ⟨(requestInterceptor_attaches_bearer ⟨some "T1", none⟩ (mkRequest "/products")).2
      "T1" rfl (by decide),
   (requestInterceptor_attaches_bearer ⟨none, none⟩ (mkRequest "/products")).1 rfl⟩

/-- C6: through the service wrapper, every underlying failure is
normalized into exactly one of three shapes: a server response gives
`{status := that status, message := body message if truthy else the
generic fallback}`; a sent request without a response gives status 503;
a request that could not be constructed gives status 500. -/
theorem handleError_trichotomy (st : Storage) (s : Nat) (m : Option String) :
    (register st (ServerOutcome.httpError s m : ServerOutcome Unit)).result
      = .error ⟨s, strOr m fallbackMsg⟩
  ∧ (register st (ServerOutcome.noResponse : ServerOutcome Unit)).result
      = .error ⟨503, unreachableMsg⟩
  ∧ (register st (ServerOutcome.setupFailure : ServerOutcome Unit)).result
      = .error ⟨500, configErrorMsg⟩
  ∧ (m = none → strOr m fallbackMsg = fallbackMsg)
  ∧ (∀ msg, m = some msg → msg ≠ "" → strOr m fallbackMsg = msg) := by
  refine ⟨rfl, rfl, rfl, fun h => by rw [h]; rfl, fun msg hm hne => ?_⟩
  rw [hm]; simp [strOr, hne]

/-- C6 witness: a 500 response whose body carries `message: "boom"`
normalizes to `{500, "boom"}`. -/
theorem handleError_trichotomy_witness :
    (register ⟨none, none⟩ (ServerOutcome.httpError 500 (some "boom") : ServerOutcome Unit)).result
      = .error ⟨500, strOr (some "boom") fallbackMsg⟩
  ∧ strOr (some "boom") fallbackMsg = "boom" :=
  ⟨(handleError_trichotomy ⟨none, none⟩ 500 (some "boom")).1,
   (handleError_trichotomy ⟨none, none⟩ 500 (some "boom")).2.2.2.2 "boom" rfl (by decide)⟩

/-- C7: `getCurrentUser` is total and best-effort — a storage read
failure, an unset key, and an unparsable stored string all yield
`none` instead of an error. -/
theorem getCurrentUser_best_effort :
    getCurrentUserIO .fail = none
  ∧ getCurrentUserIO (.ok none) = none
  ∧ (∀ s, parseUser s = none → getCurrentUserIO (.ok (some s)) = none) :=
  ⟨rfl, rfl, fun _ h => h⟩

/-- C7 witness: an unparsable stored user string yields `none`. -/
theorem getCurrentUser_best_effort_witness :
    getCurrentUserIO (.ok (some "not-json")) = none :=
  getCurrentUser_best_effort.2.2 "not-json" (by decide)

/-- C8: storing any profile record through the textual serialization
and reading it back returns a value equal to the original — the
round-trip preserves `id`, `email`, `fullName` and the optional
`phone`, populated or absent. -/
theorem setUser_getUser_roundtrip (st : Storage) (u : User) :
    getCurrentUser (setUser st u) = some u := by
  simp only [setUser, getCurrentUser, getCurrentUserIO]
  exact parseUser_stringifyUser u

/-- C9: a successful `register` is a frame on the session: the storage
is untouched (so `isAuthenticated` and `getCurrentUser` are unchanged)
and the response body is returned. -/
theorem register_success_frame {β : Type} (st : Storage) (body : β) :
    (register st (.success body)).store = st
  ∧ (register st (.success body)).result = .ok body
  ∧ isAuthenticated (register st (.success body)).store = isAuthenticated st
  ∧ getCurrentUser (register st (.success body)).store = getCurrentUser st :=
  ⟨rfl, rfl, rfl, rfl⟩

/-- C10: a login whose request succeeds but whose body carries no
truthy token (absent or empty) returns the body without writing to
storage: the store is unchanged, `isAuthenticated` and
`getCurrentUser` keep their previous values, and in particular
`isAuthenticated` stays false if it was false. -/
theorem login_no_token_no_persist (st : Storage) (body : AuthResponse)
    (h : strTruthy body.token = false) :
    (login st (.success body)).store = st
  ∧ (login st (.success body)).result = .ok body
  ∧ isAuthenticated (login st (.success body)).store = isAuthenticated st
  ∧ getCurrentUser (login st (.success body)).store = getCurrentUser st
  ∧ (isAuthenticated st = false → isAuthenticated (login st (.success body)).store = false) := by
  have hmain : login st (.success body)
      = ⟨st, applyRequestInterceptor st (mkRequest "/auth/login"), .ok body⟩ := by
    simp [login, gatewayRequest, h]
  rw [hmain]
  exact ⟨rfl, rfl, rfl, rfl, fun hf => hf⟩

/-- C10 witness: a login response with an empty-string token leaves the
empty session unauthenticated. -/
theorem login_no_token_no_persist_witness :
    (login ⟨none, none⟩ (.success ⟨some "", ⟨"1", "a@b.com", "A", none⟩⟩)).store = ⟨none, none⟩
  ∧ (login ⟨none, none⟩ (.success ⟨some "", ⟨"1", "a@b.com", "A", none⟩⟩)).result
      = .ok ⟨some "", ⟨"1", "a@b.com", "A", none⟩⟩
  ∧ isAuthenticated (login ⟨none, none⟩ (.success ⟨some "", ⟨"1", "a@b.com", "A", none⟩⟩)).store
      = false :=
  ⟨(login_no_token_no_persist ⟨none, none⟩ ⟨some "", ⟨"1", "a@b.com", "A", none⟩⟩ (by decide)).1,
   (login_no_token_no_persist ⟨none, none⟩ ⟨some "", ⟨"1", "a@b.com", "A", none⟩⟩ (by decide)).2.1,
   (login_no_token_no_persist ⟨none, none⟩ ⟨some "", ⟨"1", "a@b.com", "A", none⟩⟩ (by decide)).2.2.2.2
     rfl⟩
